import Mathlib

/-!
# Verification of the WeatherApp transformation pipeline

A shallow embedding of `src/transform.py` (class `WeatherTransformer`).
A pandas `DataFrame` is modelled as a `Table`: the `date` column plus a
fixed universe of optional columns (a column that is absent from the
dataframe is `none`).  Float arithmetic is modelled exactly over `ℚ`.
A pandas operation that raises `KeyError` on a missing column is
modelled by an `Option`-valued function returning `none`.
-/

/-- A calendar date (pandas `Timestamp` at day resolution). -/
structure Date where
  year : Int
  month : Nat
  day : Nat
deriving DecidableEq, Repr

/-- Gregorian leap-year rule (as used by pandas `dt.dayofyear`). -/
def isLeap (y : Int) : Bool :=
  (y % 4 == 0 && y % 100 != 0) || (y % 400 == 0)

/-- Cumulative day count before the given month (non-leap year). -/
def daysBeforeMonth (m : Nat) : Nat :=
  [0, 0, 31, 59, 90, 120, 151, 181, 212, 243, 273, 304, 334].getD m 0

/-- Day-of-year of a date, 1-based (pandas `dt.dayofyear`). -/
def dayOfYear (d : Date) : Nat :=
  daysBeforeMonth d.month + (if isLeap d.year && d.month > 2 then 1 else 0) + d.day

/-- The embedded dataframe: a required `date` column and every column any
pipeline stage may read or write; `none` marks a column that is absent. -/
structure Table where
  date : List Date
  tmax : Option (List ℚ) := none
  tmin : Option (List ℚ) := none
  precipitation : Option (List ℚ) := none
  windspeed_max : Option (List ℚ) := none
  tmean : Option (List ℚ) := none
  temp_range : Option (List ℚ) := none
  year : Option (List Int) := none
  month : Option (List Nat) := none
  day_of_year : Option (List Nat) := none
  season : Option (List String) := none
  tmean_7d : Option (List (Option ℚ)) := none
  tmax_7d : Option (List (Option ℚ)) := none
  tmin_7d : Option (List (Option ℚ)) := none
  precip_7d : Option (List (Option ℚ)) := none
  monthly_climate : Option (List ℚ) := none
  temp_anomaly : Option (List ℚ) := none
  anomaly_category : Option (List String) := none
  extreme_heat : Option (List Bool) := none
  extreme_cold : Option (List Bool) := none
  extreme_precip : Option (List Bool) := none
deriving DecidableEq, Repr

/-- Arithmetic mean of a list of rationals (pandas `mean`; the empty case is
never reached on the groups the pipeline builds). -/
def meanQ (xs : List ℚ) : ℚ := xs.sum / xs.length

/-- Season name of a month number (`WeatherTransformer._get_season`). -/
def getSeason (month : Nat) : String :=
  if month = 12 ∨ month = 1 ∨ month = 2 then "Winter"
  else if month = 3 ∨ month = 4 ∨ month = 5 then "Spring"
  else if month = 6 ∨ month = 7 ∨ month = 8 then "Summer"
  else "Fall"

/-- Stage `add_basic_features`: reads `tmax`, `tmin` and `date`; adds `tmean`,
`temp_range`, `year`, `month`, `day_of_year`, `season`.  A missing `tmax`
or `tmin` raises `KeyError` in pandas, modelled as `none`. -/
def addBasicFeatures (T : Table) : Option Table :=
  match T.tmax, T.tmin with
  | some tmax, some tmin =>
    let months := T.date.map (·.month)
    some { T with
      tmean := some (List.zipWith (fun a b => (a + b) / 2) tmax tmin)
      temp_range := some (List.zipWith (fun a b => a - b) tmax tmin)
      year := some (T.date.map (·.year))
      month := some months
      day_of_year := some (T.date.map dayOfYear)
      season := some (months.map getSeason) }
  | _, _ => none

/-- One entry of a pandas centered rolling aggregate
(`rolling(window=w, center=True)` with default `min_periods = w`): the
window labelled at position `i` covers indices
`[i + (w-1)/2 - (w-1), i + (w-1)/2]`; the entry is absent unless the full
window lies inside the series. -/
def rollingEntry (w : Nat) (f : List ℚ → ℚ) (xs : List ℚ) (i : Nat) : Option ℚ :=
  if w ≤ i + (w - 1) / 2 + 1 ∧ i + (w - 1) / 2 < xs.length then
    some (f ((xs.drop (i + (w - 1) / 2 + 1 - w)).take w))
  else none

/-- A full centered rolling column over a series. -/
def rollingCentered (w : Nat) (f : List ℚ → ℚ) (xs : List ℚ) : List (Option ℚ) :=
  (List.range xs.length).map (rollingEntry w f xs)

/-- Stage `add_rolling_averages(df, window=7)`: centered rolling means of `tmean`,
`tmax`, `tmin` and a centered rolling sum of `precipitation`.  Any of those
four columns missing raises `KeyError`, modelled as `none`. -/
def addRollingAverages (T : Table) (window : Nat := 7) : Option Table :=
  match T.tmean, T.tmax, T.tmin, T.precipitation with
  | some ts, some txs, some tns, some prs =>
    some { T with
      tmean_7d := some (rollingCentered window meanQ ts)
      tmax_7d := some (rollingCentered window meanQ txs)
      tmin_7d := some (rollingCentered window meanQ tns)
      precip_7d := some (rollingCentered window List.sum prs) }
  | _, _, _, _ => none

/-- Binning of `pd.cut(x, bins=[-inf, -2, -1, 1, 2, inf], labels=[...])` with the
default `right=True`: intervals are left-open and right-closed. -/
def anomalyCategory (x : ℚ) : String :=
  if x ≤ -2 then "Very Cold"
  else if x ≤ -1 then "Cold"
  else if x ≤ 1 then "Normal"
  else if x ≤ 2 then "Warm"
  else "Very Warm"

/-- Per-row pooled monthly climatology:
`df.groupby('month')['tmean'].transform('mean')` — each row gets the mean
of `tmean` over all rows sharing its `month` value. -/
def monthlyClimate (months : List Nat) (tmeans : List ℚ) : List ℚ :=
  let pairs := months.zip tmeans
  months.map (fun m => meanQ ((pairs.filter (fun p => p.1 = m)).map Prod.snd))

/-- Stage `add_temperature_anomalies`: adds `temp_anomaly`, `monthly_climate`,
`anomaly_category`.  Missing `month` or `tmean` raises `KeyError`. -/
def addTemperatureAnomalies (T : Table) : Option Table :=
  match T.month, T.tmean with
  | some ms, some ts =>
    let climate := monthlyClimate ms ts
    let anom := List.zipWith (fun a b => a - b) ts climate
    some { T with
      temp_anomaly := some anom
      monthly_climate := some climate
      anomaly_category := some (anom.map anomalyCategory) }
  | _, _ => none

/-- The (year, month) group key of a date (pandas `dt.to_period('M')`). -/
def monthKey (d : Date) : Int × Nat := (d.year, d.month)

/-- Chronological order on (year, month) keys. -/
def keyLE (a b : Int × Nat) : Prop :=
  a.1 < b.1 ∨ (a.1 = b.1 ∧ a.2 ≤ b.2)

instance : DecidableRel keyLE := fun a b =>
  inferInstanceAs (Decidable (_ ∨ _))

instance : IsTotal (Int × Nat) keyLE := by
  constructor
  intro a b
  rcases a with ⟨ay, am⟩
  rcases b with ⟨by_, bm⟩
  simp only [keyLE]
  omega

instance : IsTrans (Int × Nat) keyLE := by
  constructor
  intro a b c hab hbc
  rcases a with ⟨ay, am⟩
  rcases b with ⟨by_, bm⟩
  rcases c with ⟨cy, cm⟩
  simp only [keyLE] at *
  omega

/-- The sorted list of distinct (year, month) keys of a date column
(pandas `groupby` sorts group keys ascending). -/
def sortedKeys (dates : List Date) : List (Int × Nat) :=
  List.insertionSort keyLE ((dates.map monthKey).dedup)

/-- The values of a column restricted to the rows of one (year, month)
group, in input order. -/
def groupVals (dates : List Date) (vals : List α) (k : Int × Nat) : List α :=
  ((dates.zip vals).filter (fun q => monthKey q.1 = k)).map Prod.snd

/-- Monthly mean of an optional-valued column: pandas `mean` skips absent
entries and yields `NaN` (here `none`) when the group has no present value. -/
def aggMeanOpt (g : List (Option ℚ)) : Option ℚ :=
  let v := g.filterMap id
  if v.isEmpty then none else some (meanQ v)

/-- Monthly sum of an optional-valued column: pandas `sum` skips absent
entries and yields `0` on an all-absent group. -/
def aggSumOpt (g : List (Option ℚ)) : ℚ := (g.filterMap id).sum

/-- Stage `aggregate_monthly`: groups by (year, month); means for `tmax`, `tmin`,
`tmean`, `windspeed_max`, `temp_range` (and `temp_anomaly`, `tmean_7d`,
`tmax_7d`, `tmin_7d` when aggregated), sums for `precipitation` (and
`precip_7d`); the rolling block is aggregated exactly when `tmean_7d` is
present; `temp_anomaly` exactly when it is present; output `date` is the
first day of the month with re-derived `year` and `month`.  A required
column missing from `agg_rules` raises `KeyError`, modelled as `none`. -/
def aggregateMonthly (T : Table) : Option Table :=
  match T.tmax, T.tmin, T.tmean, T.precipitation, T.windspeed_max, T.temp_range with
  | some txs, some tns, some ts, some prs, some ws, some trs =>
    let keys := sortedKeys T.date
    let gmean := fun (vals : List ℚ) => keys.map (fun k => meanQ (groupVals T.date vals k))
    let gsum := fun (vals : List ℚ) => keys.map (fun k => (groupVals T.date vals k).sum)
    let base : Table := {
      date := keys.map (fun k => ⟨k.1, k.2, 1⟩)
      tmax := some (gmean txs)
      tmin := some (gmean tns)
      tmean := some (gmean ts)
      precipitation := some (gsum prs)
      windspeed_max := some (gmean ws)
      temp_range := some (gmean trs)
      year := some (keys.map Prod.fst)
      month := some (keys.map Prod.snd)
      temp_anomaly := T.temp_anomaly.map gmean }
    match T.tmean_7d with
    | some x7 =>
      match T.tmax_7d, T.tmin_7d, T.precip_7d with
      | some a7, some b7, some c7 =>
        some { base with
          tmean_7d := some (keys.map (fun k => aggMeanOpt (groupVals T.date x7 k)))
          tmax_7d := some (keys.map (fun k => aggMeanOpt (groupVals T.date a7 k)))
          tmin_7d := some (keys.map (fun k => aggMeanOpt (groupVals T.date b7 k)))
          precip_7d := some (keys.map (fun k => some (aggSumOpt (groupVals T.date c7 k)))) }
      | _, _, _ => none
    | none => some base
  | _, _, _, _, _, _ => none

/-- Pandas `Series.quantile(q)` with the default linear interpolation:
position `q * (n - 1)` in the sorted values, interpolating between the
two neighbouring order statistics. -/
def quantileQ (xs : List ℚ) (q : ℚ) : ℚ :=
  let s := List.insertionSort (fun a b : ℚ => a ≤ b) xs
  if s.length = 0 then 0
  else
    let pos : ℚ := q * ((s.length : ℚ) - 1)
    let lo : Nat := (⌊pos⌋).toNat
    let a := s.getD lo 0
    let b := s.getD (lo + 1) a
    a + (pos - lo) * (b - a)

/-- Stage `detect_extreme_events(df, temp_threshold=2.0, precip_threshold=95)`:
heat/cold flags from `temp_anomaly` when present, otherwise from the
95th/5th percentile of `tmean`; `extreme_precip` always from the
`precip_threshold` percentile of `precipitation`. -/
def detectExtremeEvents (T : Table) (temp_threshold : ℚ := 2)
    (precip_threshold : ℚ := 95) : Option Table :=
  let heatCold : Option (List Bool × List Bool) :=
    match T.temp_anomaly with
    | some as_ => some (as_.map (fun a => decide (temp_threshold < a)),
                        as_.map (fun a => decide (a < -temp_threshold)))
    | none =>
      match T.tmean with
      | some ts =>
        some (ts.map (fun t => decide (quantileQ ts (95 / 100) < t)),
              ts.map (fun t => decide (t < quantileQ ts (5 / 100))))
      | none => none
  match heatCold, T.precipitation with
  | some (h, c), some prs =>
    some { T with
      extreme_heat := some h
      extreme_cold := some c
      extreme_precip :=
        some (prs.map (fun p => decide (quantileQ prs (precip_threshold / 100) < p))) }
  | _, _ => none

/-- The scalar summary of `calculate_statistics`. -/
structure Stats where
  count : Nat
  date_start : Date
  date_end : Date
  temp_mean_avg : ℚ
  temp_mean_max : ℚ
  temp_mean_min : ℚ
  temp_absolute_max : ℚ
  temp_absolute_min : ℚ
  precip_total : ℚ
  precip_mean_daily : ℚ
  precip_max_daily : ℚ
  days_with_rain : Nat
  wind_mean_max : ℚ
  wind_absolute_max : ℚ
deriving DecidableEq, Repr

/-- Chronological (lexicographic) order on dates. -/
def dateLE (a b : Date) : Prop :=
  a.year < b.year ∨ (a.year = b.year ∧
    (a.month < b.month ∨ (a.month = b.month ∧ a.day ≤ b.day)))

instance : DecidableRel dateLE := fun a b =>
  inferInstanceAs (Decidable (_ ∨ _))

/-- Chronological minimum of a date column (pandas `Series.min`). -/
def dateMin (ds : List Date) : Date :=
  ds.foldl (fun a b => if dateLE b a then b else a) (ds.headD ⟨0, 1, 1⟩)

/-- Chronological maximum of a date column (pandas `Series.max`). -/
def dateMax (ds : List Date) : Date :=
  ds.foldl (fun a b => if dateLE a b then b else a) (ds.headD ⟨0, 1, 1⟩)

/-- Maximum of a rational column (pandas `Series.max`). -/
def maxQ (xs : List ℚ) : ℚ := xs.foldl max (xs.headD 0)

/-- Minimum of a rational column (pandas `Series.min`). -/
def minQ (xs : List ℚ) : ℚ := xs.foldl min (xs.headD 0)

/-- Reader `calculate_statistics`: a pure read of the table producing the summary
dictionary; a missing read column raises `KeyError`, modelled as `none`. -/
def calculateStatistics (T : Table) : Option Stats :=
  match T.tmean, T.tmax, T.tmin, T.precipitation, T.windspeed_max with
  | some ts, some txs, some tns, some prs, some ws =>
    some {
      count := T.date.length
      date_start := dateMin T.date
      date_end := dateMax T.date
      temp_mean_avg := meanQ ts
      temp_mean_max := meanQ txs
      temp_mean_min := meanQ tns
      temp_absolute_max := maxQ txs
      temp_absolute_min := minQ tns
      precip_total := prs.sum
      precip_mean_daily := meanQ prs
      precip_max_daily := maxQ prs
      days_with_rain := (prs.filter (fun p => 0 < p)).length
      wind_mean_max := meanQ ws
      wind_absolute_max := maxQ ws }
  | _, _, _, _, _ => none

/-! ## Object-store model of the Python dataframe mutations

Each transformation stage begins with `df_copy = df.copy()` and then
assigns columns of `df_copy` only.  To settle the frame claim we model the
heap of dataframe objects explicitly: a `Store` is a list of tables, a
Python variable holds a reference (an index into the store), `copy`
allocates a fresh object at the end of the store, and every column
assignment of a stage mutates only that fresh object. -/

/-- The heap of dataframe objects. -/
abbrev Store := List Table

/-- Dereference a dataframe variable. -/
def readRef (s : Store) (r : Nat) : Table := s.getD r { date := [] }

/-- Run one stage of the pipeline on the object named `df`:
`df.copy()` allocates a fresh cell, all column assignments of the stage
land in that cell, and a reference to it is returned (`none` models the
stage raising `KeyError`, in which case the partially assigned copy is
abandoned). -/
def runStage (stage : Table → Option Table) (s : Store) (df : Nat) :
    Store × Option Nat :=
  let t := readRef s df
  match stage t with
  | some t2 => (s ++ [t2], some s.length)
  | none => (s ++ [t], none)

/-- Run `calculate_statistics` on the object named `df`: a pure read, no
copy and no assignment. -/
def runCalculateStatistics (s : Store) (df : Nat) : Store × Option Stats :=
  (s, calculateStatistics (readRef s df))

/-! ## Concrete example tables

Small tables used to instantiate the theorems below, together with the
spec's own variant of the anomaly binning for comparison with the code's. -/

/-- The claim's binning, stated exactly as written: half-open intervals
with -2 and 2 as lower/upper pivot boundaries (Very Cold < -2,
Cold [-2,-1), Normal [-1,1), Warm [1,2), Very Warm ≥ 2). -/
def specAnomalyCategory (x : ℚ) : String :=
  if x < -2 then "Very Cold"
  else if x < -1 then "Cold"
  else if x < 1 then "Normal"
  else if x < 2 then "Warm"
  else "Very Warm"

/-- Witness table for C5: two January 2023 days. -/
def T5w : Table :=
  { date := [⟨2023, 1, 1⟩, ⟨2023, 1, 2⟩]
    tmax := some [10, 7]
    tmin := some [4, 1] }

/-- Counterexample table for C1: two rows of one month whose pooled mean
is -2, producing boundary anomalies 2 and -2. -/
def T1ex : Table :=
  { date := [⟨2023, 1, 1⟩, ⟨2023, 1, 2⟩]
    month := some [1, 1]
    tmean := some [0, -4] }

/-- The table `add_temperature_anomalies` produces on `T1ex`. -/
def T1out : Table :=
  { date := [⟨2023, 1, 1⟩, ⟨2023, 1, 2⟩]
    month := some [1, 1]
    tmean := some [0, -4]
    temp_anomaly := some [2, -2]
    monthly_climate := some [-2, -2]
    anomaly_category := some ["Warm", "Very Cold"] }

/-- Counterexample table for C3: `date` and `precipitation` only, so
`tmean`, `month`, `tmax` are all missing. -/
def T3ex : Table :=
  { date := [⟨2023, 1, 1⟩]
    precipitation := some [1] }

/-- Witness table for the amended C3: all six required base columns, no
optional column. -/
def T3w : Table :=
  { date := [⟨2023, 1, 1⟩]
    tmax := some [10]
    tmin := some [0]
    tmean := some [5]
    precipitation := some [2]
    windspeed_max := some [3]
    temp_range := some [10] }

/-- Number of absent entries of an optional-valued column. -/
def countNone (r : List (Option ℚ)) : Nat := r.countP (fun x => x.isNone)

/-- The boundary-absence pattern of a centered rolling column of odd
window `w` over `n` rows: when `n ≥ w` exactly `2 * ⌊w/2⌋` entries are
absent, the first and last `⌊w/2⌋` each, all interior entries present;
when `n < w` every entry is absent. -/
def RollingAbsence (w n : Nat) (r : List (Option ℚ)) : Prop :=
  r.length = n ∧
  (w ≤ n →
    countNone r = 2 * (w / 2) ∧
    (∀ i, i < w / 2 → r.getD i none = none) ∧
    (∀ i, n - w / 2 ≤ i → i < n → r.getD i none = none) ∧
    (∀ i, w / 2 ≤ i → i < n - w / 2 → (r.getD i none).isSome = true)) ∧
  (n < w → ∀ i, i < n → r.getD i none = none)

/-- Counterexample table for C2: exactly 7 rows, as many as the default
window. -/
def T2ex : Table :=
  { date := [⟨2023, 1, 1⟩, ⟨2023, 1, 2⟩, ⟨2023, 1, 3⟩, ⟨2023, 1, 4⟩,
      ⟨2023, 1, 5⟩, ⟨2023, 1, 6⟩, ⟨2023, 1, 7⟩]
    tmax := some [10, 10, 10, 10, 10, 10, 10]
    tmin := some [0, 0, 0, 0, 0, 0, 0]
    tmean := some [5, 5, 5, 5, 5, 5, 5]
    precipitation := some [1, 1, 1, 1, 1, 1, 1] }

/-- Witness table for the amended C2: 9 rows, window 7. -/
def T2w : Table :=
  { date := [⟨2023, 1, 1⟩, ⟨2023, 1, 2⟩, ⟨2023, 1, 3⟩, ⟨2023, 1, 4⟩,
      ⟨2023, 1, 5⟩, ⟨2023, 1, 6⟩, ⟨2023, 1, 7⟩, ⟨2023, 1, 8⟩, ⟨2023, 1, 9⟩]
    tmax := some [10, 10, 10, 10, 10, 10, 10, 10, 10]
    tmin := some [0, 0, 0, 0, 0, 0, 0, 0, 0]
    tmean := some [5, 5, 5, 5, 5, 5, 5, 5, 5]
    precipitation := some [1, 1, 1, 1, 1, 1, 1, 1, 1] }

/-- The sum of an anomaly column over the rows sharing one month value. -/
def monthAnomalySum (months : List Nat) (anoms : List ℚ) (m : Nat) : ℚ :=
  (((months.zip anoms).filter (fun p => p.1 = m)).map Prod.snd).sum

/-- Witness table for C4: two January days and one February day. -/
def T4w : Table :=
  { date := [⟨2023, 1, 1⟩, ⟨2023, 1, 2⟩, ⟨2023, 2, 1⟩]
    tmax := some [1, 3, 5]
    tmin := some [0, 0, 0]
    tmean := some [1, 3, 5]
    precipitation := some [1, 1, 7]
    windspeed_max := some [2, 4, 6]
    temp_range := some [1, 3, 5] }

/-- The monthly aggregate of `T4w`. -/
def T4out : Table :=
  { date := [⟨2023, 1, 1⟩, ⟨2023, 2, 1⟩]
    tmax := some [2, 5]
    tmin := some [0, 0]
    tmean := some [2, 5]
    precipitation := some [2, 7]
    windspeed_max := some [3, 6]
    temp_range := some [2, 5]
    year := some [2023, 2023]
    month := some [1, 2] }

/-- Witness table for C8: one row with `temp_anomaly = 3`. -/
def T8w : Table :=
  { date := [⟨2023, 1, 1⟩]
    precipitation := some [1]
    temp_anomaly := some [3] }

/-- Witness table for C10: all six required base columns, `temp_anomaly`
present, the rolling block absent. -/
def T10w : Table :=
  { date := [⟨2023, 1, 1⟩]
    tmax := some [10]
    tmin := some [0]
    tmean := some [5]
    precipitation := some [2]
    windspeed_max := some [3]
    temp_range := some [10]
    temp_anomaly := some [0] }

/-- Witness table for C7: two January rows and one February row. -/
def T7w : Table :=
  { date := [⟨2023, 1, 1⟩, ⟨2023, 1, 2⟩, ⟨2023, 2, 1⟩]
    month := some [1, 1, 2]
    tmean := some [3, 5, 7] }

/-! ## Helper lemmas -/

lemma getD_zipWith {α β γ : Type} (f : α → β → γ) (l1 : List α) (l2 : List β)
    (i : Nat) (h1 : i < l1.length) (h2 : i < l2.length) (d1 : α) (d2 : β) (d3 : γ) :
    (List.zipWith f l1 l2).getD i d3 = f (l1.getD i d1) (l2.getD i d2) := by
  have hz : i < (List.zipWith f l1 l2).length := by
    simp only [List.length_zipWith]
    omega
  rw [List.getD_eq_getElem _ _ hz, List.getD_eq_getElem _ _ h1,
    List.getD_eq_getElem _ _ h2, List.getElem_zipWith]

/-! ## C6: the season mapping -/

/-- C6: the season assigned by `add_basic_features` is `getSeason` of the
row's month, and on months 1–12 `getSeason` is a total function onto the
four season names with {12,1,2}→Winter, {3,4,5}→Spring, {6,7,8}→Summer,
{9,10,11}→Fall, each month mapping to exactly one season. -/
theorem C6_season_total :
    (∀ T out, addBasicFeatures T = some out →
      out.season = some ((T.date.map (fun d => d.month)).map getSeason)) ∧
    (∀ m : Nat, 1 ≤ m → m ≤ 12 →
      (getSeason m = "Winter" ∨ getSeason m = "Spring" ∨
        getSeason m = "Summer" ∨ getSeason m = "Fall") ∧
      (getSeason m = "Winter" ↔ (m = 12 ∨ m = 1 ∨ m = 2)) ∧
      (getSeason m = "Spring" ↔ (m = 3 ∨ m = 4 ∨ m = 5)) ∧
      (getSeason m = "Summer" ↔ (m = 6 ∨ m = 7 ∨ m = 8)) ∧
      (getSeason m = "Fall" ↔ (m = 9 ∨ m = 10 ∨ m = 11))) := by
  constructor
  · intro T out h
    cases htx : T.tmax with
    | none => simp [addBasicFeatures, htx] at h
    | some txs =>
      cases htn : T.tmin with
      | none => simp [addBasicFeatures, htx, htn] at h
      | some tns =>
        simp only [addBasicFeatures, htx, htn, Option.some.injEq] at h
        subst h
        rfl
  · intro m h1 h2
    interval_cases m <;> exact ⟨by decide, by decide, by decide, by decide, by decide⟩

/-- Witness for C6 at concrete months. -/
theorem C6_witness :
    getSeason 12 = "Winter" ∧ getSeason 4 = "Spring" ∧
    getSeason 7 = "Summer" ∧ getSeason 10 = "Fall" :=
  ⟨(C6_season_total.2 12 (by decide) (by decide)).2.1.mpr (Or.inl rfl),
   (C6_season_total.2 4 (by decide) (by decide)).2.2.1.mpr (Or.inr (Or.inl rfl)),
   (C6_season_total.2 7 (by decide) (by decide)).2.2.2.1.mpr (Or.inr (Or.inl rfl)),
   (C6_season_total.2 10 (by decide) (by decide)).2.2.2.2.mpr (Or.inr (Or.inl rfl))⟩

/-! ## C5: basic derived features -/

/-- C5: `add_basic_features` keeps the rows (the `date` column) unchanged
in count and order, and every row satisfies `tmean = (tmax + tmin) / 2`
and `temp_range = tmax - tmin` exactly. -/
theorem C5_basic_features_exact (T : Table) (txs tns : List ℚ)
    (htx : T.tmax = some txs) (htn : T.tmin = some tns)
    (hlx : txs.length = T.date.length) (hln : tns.length = T.date.length) :
    ∃ out, addBasicFeatures T = some out ∧
      out.date = T.date ∧
      ∃ ms rg, out.tmean = some ms ∧ out.temp_range = some rg ∧
        ms.length = T.date.length ∧ rg.length = T.date.length ∧
        ∀ i, i < T.date.length →
          ms.getD i 0 = (txs.getD i 0 + tns.getD i 0) / 2 ∧
          rg.getD i 0 = txs.getD i 0 - tns.getD i 0 := by
  have h : addBasicFeatures T = some { T with
      tmean := some (List.zipWith (fun a b => (a + b) / 2) txs tns)
      temp_range := some (List.zipWith (fun a b => a - b) txs tns)
      year := some (T.date.map (·.year))
      month := some (T.date.map (·.month))
      day_of_year := some (T.date.map dayOfYear)
      season := some ((T.date.map (·.month)).map getSeason) } := by
    simp only [addBasicFeatures, htx, htn]
  refine ⟨_, h, rfl, _, _, rfl, rfl, ?_, ?_, ?_⟩
  · simp only [List.length_zipWith]
    omega
  · simp only [List.length_zipWith]
    omega
  · intro i hi
    constructor
    · exact getD_zipWith _ txs tns i (by omega) (by omega) 0 0 0
    · exact getD_zipWith _ txs tns i (by omega) (by omega) 0 0 0

/-- Witness for C5 at a concrete table. -/
theorem C5_witness :
    ∃ out, addBasicFeatures T5w = some out ∧
      out.date = T5w.date ∧
      ∃ ms rg, out.tmean = some ms ∧ out.temp_range = some rg ∧
        ms.length = T5w.date.length ∧ rg.length = T5w.date.length ∧
        ∀ i, i < T5w.date.length →
          ms.getD i 0 = ([(10 : ℚ), 7].getD i 0 + [(4 : ℚ), 1].getD i 0) / 2 ∧
          rg.getD i 0 = [(10 : ℚ), 7].getD i 0 - [(4 : ℚ), 1].getD i 0 :=
  C5_basic_features_exact T5w [10, 7] [4, 1] rfl rfl (by decide) (by decide)

/-! ## C1: anomaly categories (corrected) -/

/-- C1 is false as stated: at `temp_anomaly = 2` the code's `pd.cut`
(right-closed bins) yields "Warm", while the claim's half-open bins
require "Very Warm"; at `temp_anomaly = -2` the code yields "Very Cold"
while the claim requires "Cold". -/
theorem C1_counterexample :
    (addTemperatureAnomalies T1ex).map Table.temp_anomaly = some (some [2, -2]) ∧
    (addTemperatureAnomalies T1ex).map Table.anomaly_category =
      some (some ["Warm", "Very Cold"]) ∧
    specAnomalyCategory 2 = "Very Warm" ∧ specAnomalyCategory (-2) = "Cold" ∧
    "Warm" ≠ "Very Warm" ∧ "Very Cold" ≠ "Cold" := by
  refine ⟨?_, ?_, ?_, ?_, by decide, by decide⟩
  · norm_num [addTemperatureAnomalies, T1ex, monthlyClimate, meanQ]
  · norm_num [addTemperatureAnomalies, T1ex, monthlyClimate, meanQ, anomalyCategory]
  · norm_num [specAnomalyCategory]
  · norm_num [specAnomalyCategory]

/-- C1 amended: each row's `anomaly_category` is determined by its
`temp_anomaly` value via fixed left-open right-closed bins (pandas
`pd.cut` with `right=True`): Very Cold iff `x ≤ -2`, Cold iff
`-2 < x ≤ -1`, Normal iff `-1 < x ≤ 1`, Warm iff `1 < x ≤ 2`,
Very Warm iff `2 < x`. -/
theorem C1_amended_categories :
    (∀ T out, addTemperatureAnomalies T = some out →
      ∃ anom, out.temp_anomaly = some anom ∧
        out.anomaly_category = some (anom.map anomalyCategory)) ∧
    (∀ x : ℚ,
      (anomalyCategory x = "Very Cold" ↔ x ≤ -2) ∧
      (anomalyCategory x = "Cold" ↔ -2 < x ∧ x ≤ -1) ∧
      (anomalyCategory x = "Normal" ↔ -1 < x ∧ x ≤ 1) ∧
      (anomalyCategory x = "Warm" ↔ 1 < x ∧ x ≤ 2) ∧
      (anomalyCategory x = "Very Warm" ↔ 2 < x)) := by
  constructor
  · intro T out h
    cases hm : T.month with
    | none => simp [addTemperatureAnomalies, hm] at h
    | some ms =>
      cases ht : T.tmean with
      | none => simp [addTemperatureAnomalies, hm, ht] at h
      | some ts =>
        simp only [addTemperatureAnomalies, hm, ht, Option.some.injEq] at h
        subst h
        exact ⟨_, rfl, rfl⟩
  · intro x
    unfold anomalyCategory
    split_ifs with h1 h2 h3 h4 <;>
      refine ⟨?_, ?_, ?_, ?_, ?_⟩ <;>
      constructor <;>
      intro hx <;>
      first
        | rfl
        | linarith
        | (constructor <;> linarith)
        | (exact absurd hx (by decide))
        | (exfalso; linarith)
        | (exfalso; rcases hx with ⟨hx1, hx2⟩; linarith)

/-- Witness for the amended C1 at a concrete table. -/
theorem C1_witness :
    ∃ anom, T1out.temp_anomaly = some anom ∧
      T1out.anomaly_category = some (anom.map anomalyCategory) :=
  C1_amended_categories.1 T1ex T1out
    (by norm_num [addTemperatureAnomalies, T1ex, T1out, monthlyClimate, meanQ,
      anomalyCategory])

/-! ## C3: missing prerequisite columns (corrected) -/

/-- C3 is false as stated: with a prerequisite column missing each stage
raises `KeyError` (modelled as `none`) instead of skipping the derived
feature and returning successfully. -/
theorem C3_counterexample :
    addRollingAverages T3ex 7 = none ∧
    addTemperatureAnomalies T3ex = none ∧
    aggregateMonthly T3ex = none :=
  ⟨rfl, rfl, rfl⟩

/-- C3 amended: only the optional derived columns are skipped —
`aggregate_monthly` succeeds without the rolling and anomaly columns and
simply omits them — while a missing required prerequisite column
(`tmean`/`tmax`/`tmin`/`precipitation` for `add_rolling_averages`,
`month`/`tmean` for `add_temperature_anomalies`, the six aggregated base
columns for `aggregate_monthly`) makes the stage fail with `KeyError`. -/
theorem C3_amended_prereqs :
    (∀ T w, (T.tmean = none ∨ T.tmax = none ∨ T.tmin = none ∨
        T.precipitation = none) → addRollingAverages T w = none) ∧
    (∀ T, (T.month = none ∨ T.tmean = none) →
      addTemperatureAnomalies T = none) ∧
    (∀ T, (T.tmax = none ∨ T.tmin = none ∨ T.tmean = none ∨
        T.precipitation = none ∨ T.windspeed_max = none ∨
        T.temp_range = none) → aggregateMonthly T = none) ∧
    (∀ T txs tns ts prs ws trs, T.tmax = some txs → T.tmin = some tns →
      T.tmean = some ts → T.precipitation = some prs →
      T.windspeed_max = some ws → T.temp_range = some trs →
      T.tmean_7d = none → T.temp_anomaly = none →
      ∃ out, aggregateMonthly T = some out ∧ out.tmean_7d = none ∧
        out.tmax_7d = none ∧ out.tmin_7d = none ∧ out.precip_7d = none ∧
        out.temp_anomaly = none) := by
  refine ⟨?_, ?_, ?_, ?_⟩
  · intro T w h
    rcases h with h | h | h | h
    · simp [addRollingAverages, h]
    · cases ht : T.tmean <;> simp [addRollingAverages, ht, h]
    · cases ht : T.tmean <;> cases htx : T.tmax <;>
        simp [addRollingAverages, ht, htx, h]
    · cases ht : T.tmean <;> cases htx : T.tmax <;> cases htn : T.tmin <;>
        simp [addRollingAverages, ht, htx, htn, h]
  · intro T h
    rcases h with h | h
    · simp [addTemperatureAnomalies, h]
    · cases hm : T.month <;> simp [addTemperatureAnomalies, hm, h]
  · intro T h
    rcases h with h | h | h | h | h | h
    · simp [aggregateMonthly, h]
    · cases h1 : T.tmax <;> simp [aggregateMonthly, h1, h]
    · cases h1 : T.tmax <;> cases h2 : T.tmin <;>
        simp [aggregateMonthly, h1, h2, h]
    · cases h1 : T.tmax <;> cases h2 : T.tmin <;> cases h3 : T.tmean <;>
        simp [aggregateMonthly, h1, h2, h3, h]
    · cases h1 : T.tmax <;> cases h2 : T.tmin <;> cases h3 : T.tmean <;>
        cases h4 : T.precipitation <;> simp [aggregateMonthly, h1, h2, h3, h4, h]
    · cases h1 : T.tmax <;> cases h2 : T.tmin <;> cases h3 : T.tmean <;>
        cases h4 : T.precipitation <;> cases h5 : T.windspeed_max <;>
        simp [aggregateMonthly, h1, h2, h3, h4, h5, h]
  · intro T txs tns ts prs ws trs h1 h2 h3 h4 h5 h6 h7 h8
    simp only [aggregateMonthly, h1, h2, h3, h4, h5, h6, h7, h8, Option.map_none']
    exact ⟨_, rfl, rfl, rfl, rfl, rfl, rfl⟩

/-- Witness for the amended C3: aggregation succeeds and skips the
optional columns. -/
theorem C3_witness :
    ∃ out, aggregateMonthly T3w = some out ∧ out.tmean_7d = none ∧
      out.tmax_7d = none ∧ out.tmin_7d = none ∧ out.precip_7d = none ∧
      out.temp_anomaly = none :=
  C3_amended_prereqs.2.2.2 T3w [10] [0] [5] [2] [3] [10]
    rfl rfl rfl rfl rfl rfl rfl rfl

/-! ## C2: rolling-window boundary absences (corrected) -/

lemma countP_range_Ico (c d n : Nat) :
    (List.range n).countP (fun i => decide (c ≤ i ∧ i < d)) =
      min d n - min c n := by
  induction n with
  | zero => simp
  | succ n ih =>
    rw [List.range_succ, List.countP_append, ih]
    by_cases h : c ≤ n ∧ n < d
    · simp [List.countP_cons, h]
      omega
    · simp [List.countP_cons, h]
      omega

lemma rollingEntry_eq_none_iff (w : Nat) (f : List ℚ → ℚ) (xs : List ℚ)
    (i : Nat) :
    rollingEntry w f xs i = none ↔
      ¬(w ≤ i + (w - 1) / 2 + 1 ∧ i + (w - 1) / 2 < xs.length) := by
  unfold rollingEntry
  split_ifs with h <;> simp [h]

lemma rollingEntry_isSome (w : Nat) (f : List ℚ → ℚ) (xs : List ℚ) (i : Nat) :
    (rollingEntry w f xs i).isSome =
      decide (w ≤ i + (w - 1) / 2 + 1 ∧ i + (w - 1) / 2 < xs.length) := by
  unfold rollingEntry
  split_ifs with h <;> simp [h]

lemma rollingCentered_length (w : Nat) (f : List ℚ → ℚ) (xs : List ℚ) :
    (rollingCentered w f xs).length = xs.length := by
  simp [rollingCentered]

lemma rollingCentered_getD (w : Nat) (f : List ℚ → ℚ) (xs : List ℚ) (i : Nat)
    (hi : i < xs.length) :
    (rollingCentered w f xs).getD i none = rollingEntry w f xs i := by
  unfold rollingCentered
  rw [List.getD_eq_getElem?_getD, List.getElem?_map, List.getElem?_range hi]
  rfl

lemma countNone_rollingCentered (w : Nat) (hodd : w % 2 = 1)
    (f : List ℚ → ℚ) (xs : List ℚ) :
    countNone (rollingCentered w f xs) =
      xs.length - (min (xs.length - w / 2) xs.length - min (w / 2) xs.length) := by
  have hpt : ∀ i, (rollingEntry w f xs i).isNone
      = !decide (w / 2 ≤ i ∧ i < xs.length - w / 2) := by
    intro i
    unfold rollingEntry
    split_ifs with h
    · have hc : (w / 2 ≤ i ∧ i < xs.length - w / 2) := by omega
      rw [decide_eq_true hc]
      rfl
    · have hc : ¬(w / 2 ≤ i ∧ i < xs.length - w / 2) := by omega
      rw [decide_eq_false hc]
      rfl
  unfold countNone rollingCentered
  rw [List.countP_map]
  have h1 : (List.range xs.length).countP ((fun x => x.isNone) ∘ rollingEntry w f xs)
      = (List.range xs.length).countP
          (fun i => !decide (w / 2 ≤ i ∧ i < xs.length - w / 2)) := by
    apply List.countP_congr
    intro i _
    simp only [Function.comp_apply, hpt i]
  rw [h1]
  have hsplit := List.length_eq_countP_add_countP
    (fun i => decide (w / 2 ≤ i ∧ i < xs.length - w / 2)) (List.range xs.length)
  have h2 : (List.range xs.length).countP
        (fun a => decide ¬((fun i =>
          decide (w / 2 ≤ i ∧ i < xs.length - w / 2)) a = true))
      = (List.range xs.length).countP
          (fun i => !decide (w / 2 ≤ i ∧ i < xs.length - w / 2)) := by
    apply List.countP_congr
    intro a _
    simp
  rw [h2] at hsplit
  have hico := countP_range_Ico (w / 2) (xs.length - w / 2) xs.length
  rw [List.length_range] at hsplit
  omega

lemma rollingAbsence_rollingCentered (w : Nat) (hodd : w % 2 = 1)
    (f : List ℚ → ℚ) (xs : List ℚ) :
    RollingAbsence w xs.length (rollingCentered w f xs) := by
  refine ⟨rollingCentered_length w f xs, ?_, ?_⟩
  · intro hw
    refine ⟨?_, ?_, ?_, ?_⟩
    · rw [countNone_rollingCentered w hodd f xs]
      omega
    · intro i hi
      rw [rollingCentered_getD w f xs i (by omega), rollingEntry_eq_none_iff]
      omega
    · intro i hi1 hi2
      rw [rollingCentered_getD w f xs i hi2, rollingEntry_eq_none_iff]
      omega
    · intro i hi1 hi2
      rw [rollingCentered_getD w f xs i (by omega), rollingEntry_isSome]
      simp only [decide_eq_true_eq]
      omega
  · intro hw i hi
    rw [rollingCentered_getD w f xs i hi, rollingEntry_eq_none_iff]
    omega

/-- C2 amended: for odd window `w`, each of the four rolling columns
follows the boundary-absence pattern with `n ≥ w` (not `n > w`) as the
threshold: for `n ≥ w` exactly `2 * ⌊w/2⌋` entries are absent, `⌊w/2⌋`
at each end, all interior entries present — in particular, at `n = w`
the single center entry is present; for `n < w` every entry is absent. -/
theorem C2_amended_rolling (T : Table) (w : Nat) (hodd : w % 2 = 1)
    (ts txs tns prs : List ℚ)
    (hts : T.tmean = some ts) (htx : T.tmax = some txs)
    (htn : T.tmin = some tns) (hpr : T.precipitation = some prs)
    (hlt : ts.length = T.date.length) (hlx : txs.length = T.date.length)
    (hln : tns.length = T.date.length) (hlp : prs.length = T.date.length) :
    ∃ out, addRollingAverages T w = some out ∧
      ∃ r1 r2 r3 r4, out.tmean_7d = some r1 ∧ out.tmax_7d = some r2 ∧
        out.tmin_7d = some r3 ∧ out.precip_7d = some r4 ∧
        RollingAbsence w T.date.length r1 ∧ RollingAbsence w T.date.length r2 ∧
        RollingAbsence w T.date.length r3 ∧ RollingAbsence w T.date.length r4 := by
  simp only [addRollingAverages, hts, htx, htn, hpr]
  refine ⟨_, rfl, _, _, _, _, rfl, rfl, rfl, rfl, ?_, ?_, ?_, ?_⟩
  · exact hlt ▸ rollingAbsence_rollingCentered w hodd meanQ ts
  · exact hlx ▸ rollingAbsence_rollingCentered w hodd meanQ txs
  · exact hln ▸ rollingAbsence_rollingCentered w hodd meanQ tns
  · exact hlp ▸ rollingAbsence_rollingCentered w hodd List.sum prs

/-- C2 is false as stated for row count equal to the window: on a 7-row
table with window 7 the claim demands every rolling entry be absent, but
the center entry (index 3) is present (the full window fits there). -/
theorem C2_counterexample :
    T2ex.date.length = 7 ∧
    ∃ out r, addRollingAverages T2ex 7 = some out ∧ out.tmean_7d = some r ∧
      r.getD 3 none = some 5 := by
  refine ⟨by decide, ?_⟩
  simp only [addRollingAverages, T2ex]
  refine ⟨_, _, rfl, rfl, ?_⟩
  rw [rollingCentered_getD 7 meanQ _ 3 (by decide)]
  norm_num [rollingEntry, meanQ]

/-- Witness for the amended C2 at a 9-row table with window 7. -/
theorem C2_witness :
    ∃ out, addRollingAverages T2w 7 = some out ∧
      ∃ r1 r2 r3 r4, out.tmean_7d = some r1 ∧ out.tmax_7d = some r2 ∧
        out.tmin_7d = some r3 ∧ out.precip_7d = some r4 ∧
        RollingAbsence 7 T2w.date.length r1 ∧ RollingAbsence 7 T2w.date.length r2 ∧
        RollingAbsence 7 T2w.date.length r3 ∧ RollingAbsence 7 T2w.date.length r4 :=
  C2_amended_rolling T2w 7 (by decide) _ _ _ _ rfl rfl rfl rfl
    (by decide) (by decide) (by decide) (by decide)

/-! ## C7: monthly anomaly sums vanish -/

lemma zip_zipWith_map (ms : List Nat) (ts : List ℚ) (c : Nat → ℚ)
    (hl : ms.length = ts.length) :
    ms.zip (List.zipWith (fun a b => a - b) ts (ms.map c))
      = (ms.zip ts).map (fun p => (p.1, p.2 - c p.1)) := by
  induction ms generalizing ts with
  | nil => simp
  | cons m ms ih =>
    cases ts with
    | nil => simp at hl
    | cons t ts =>
      simp only [List.map_cons, List.zipWith_cons_cons, List.zip_cons_cons]
      rw [ih ts (by simpa using hl)]

lemma sum_map_sub_const (F : List (Nat × ℚ)) (K : ℚ) :
    (F.map (fun p => p.2 - K)).sum = (F.map Prod.snd).sum - F.length * K := by
  induction F with
  | nil => simp
  | cons p F ih =>
    simp only [List.map_cons, List.sum_cons, ih, List.length_cons]
    push_cast
    ring

lemma sum_map_add_pointwise (D : List Nat) (f g : Nat → ℚ) :
    (D.map (fun m => f m + g m)).sum = (D.map f).sum + (D.map g).sum := by
  induction D with
  | nil => simp
  | cons d D ih =>
    simp only [List.map_cons, List.sum_cons, ih]
    ring

lemma sum_map_ite_single (D : List Nat) (hD : D.Nodup) (a : Nat) (ha : a ∈ D)
    (v : ℚ) :
    (D.map (fun m => if a = m then v else 0)).sum = v := by
  induction D with
  | nil => simp at ha
  | cons d D ih =>
    rcases List.nodup_cons.mp hD with ⟨hd, hD'⟩
    rcases List.mem_cons.mp ha with h | h
    · subst h
      simp only [List.map_cons, List.sum_cons]
      have hz : (D.map (fun m => if a = m then v else 0)).sum = 0 := by
        apply List.sum_eq_zero
        intro x hx
        rcases List.mem_map.mp hx with ⟨m, hm, hxeq⟩
        have : a ≠ m := fun hc => hd (hc ▸ hm)
        rw [if_neg this] at hxeq
        exact hxeq.symm
      rw [hz]
      simp
    · have hda : a ≠ d := fun hc => hd (hc ▸ h)
      simp only [List.map_cons, List.sum_cons, if_neg hda, ih hD' h]
      ring

lemma sum_fiberwise_dedup (L : List (Nat × ℚ)) :
    (((L.map Prod.fst).dedup).map
        (fun m => ((L.filter (fun p => p.1 = m)).map Prod.snd).sum)).sum
      = (L.map Prod.snd).sum := by
  induction L with
  | nil => simp
  | cons p rest ih =>
    have hf : ∀ m, (((p :: rest).filter (fun q => q.1 = m)).map Prod.snd).sum
        = (if p.1 = m then p.2 else 0)
          + ((rest.filter (fun q => q.1 = m)).map Prod.snd).sum := by
      intro m
      rw [List.filter_cons]
      by_cases hpm : p.1 = m
      · simp [hpm]
      · simp [hpm]
    by_cases hmem : p.1 ∈ rest.map Prod.fst
    · rw [List.map_cons, List.dedup_cons_of_mem hmem]
      simp only [hf]
      rw [sum_map_add_pointwise, sum_map_ite_single _ (List.nodup_dedup _) p.1
        (List.mem_dedup.mpr hmem), ih]
      simp
    · rw [List.map_cons, List.dedup_cons_of_not_mem hmem]
      simp only [List.map_cons, List.sum_cons]
      have hrest0 : rest.filter (fun q => q.1 = p.1) = [] := by
        rw [List.filter_eq_nil_iff]
        intro q hq
        simp only [decide_eq_true_eq]
        intro hc
        exact hmem (hc ▸ List.mem_map_of_mem Prod.fst hq)
      have hhead : (((p :: rest).filter (fun q => q.1 = p.1)).map Prod.snd).sum
          = p.2 := by
        rw [hf p.1, if_pos rfl, hrest0]
        simp
      have htail : (((rest.map Prod.fst).dedup).map
            (fun m => (((p :: rest).filter (fun q => q.1 = m)).map Prod.snd).sum)).sum
          = (((rest.map Prod.fst).dedup).map
            (fun m => ((rest.filter (fun q => q.1 = m)).map Prod.snd).sum)).sum := by
        apply congrArg
        apply List.map_congr_left
        intro m hm
        have hmp : p.1 ≠ m := by
          intro hc
          exact hmem (hc ▸ List.mem_dedup.mp hm)
        rw [hf m, if_neg hmp]
        ring
      rw [hhead, htail, ih]

lemma filter_fst_map_pair (P : List (Nat × ℚ)) (h : Nat → ℚ → ℚ) (m : Nat) :
    (P.map (fun p => (p.1, h p.1 p.2))).filter (fun q => q.1 = m)
      = (P.filter (fun q => q.1 = m)).map (fun p => (p.1, h p.1 p.2)) := by
  induction P with
  | nil => rfl
  | cons p P ih =>
    simp only [List.map_cons, List.filter_cons]
    by_cases hpm : p.1 = m
    · simp [hpm, ih]
    · simp [hpm, ih]

lemma monthSum_center_zero (P : List (Nat × ℚ)) (m : Nat) :
    (((P.map (fun p =>
        (p.1, p.2 - meanQ ((P.filter (fun r => r.1 = p.1)).map Prod.snd)))).filter
          (fun q => q.1 = m)).map Prod.snd).sum = 0 := by
  rw [filter_fst_map_pair P
    (fun a b => b - meanQ ((P.filter (fun r => r.1 = a)).map Prod.snd)) m]
  rw [List.map_map]
  have hcong : (P.filter (fun q => q.1 = m)).map (Prod.snd ∘ (fun p =>
        (p.1, p.2 - meanQ ((P.filter (fun r => r.1 = p.1)).map Prod.snd))))
      = (P.filter (fun q => q.1 = m)).map (fun p =>
        p.2 - meanQ ((P.filter (fun r => r.1 = m)).map Prod.snd)) := by
    apply List.map_congr_left
    intro p hp
    have hpm : p.1 = m := of_decide_eq_true (List.mem_filter.mp hp).2
    simp only [Function.comp_apply, hpm]
  rw [hcong, sum_map_sub_const]
  rcases eq_or_ne ((P.filter (fun q => q.1 = m)).map Prod.snd) [] with hSe | hSe
  · rcases List.map_eq_nil.mp hSe with hFe
    simp [hFe]
  · have hlen0 : ((P.filter (fun q => q.1 = m)).map Prod.snd).length ≠ 0 :=
      fun hc => hSe (List.length_eq_zero.mp hc)
    have hlen : (((P.filter (fun q => q.1 = m)).map Prod.snd).length : ℚ) ≠ 0 :=
      Nat.cast_ne_zero.mpr hlen0
    have hFl : (P.filter (fun q => q.1 = m)).length
        = ((P.filter (fun q => q.1 = m)).map Prod.snd).length :=
      (List.length_map _ _).symm
    unfold meanQ
    rw [hFl, mul_comm, div_mul_cancel₀ _ hlen, sub_self]

lemma monthAnomalySum_zero (ms : List Nat) (ts : List ℚ)
    (hl : ms.length = ts.length) (m : Nat) :
    monthAnomalySum ms (List.zipWith (fun a b => a - b) ts (monthlyClimate ms ts))
      m = 0 := by
  unfold monthAnomalySum
  have hclim : monthlyClimate ms ts = ms.map (fun mo =>
      meanQ (((ms.zip ts).filter (fun p => p.1 = mo)).map Prod.snd)) := rfl
  rw [hclim, zip_zipWith_map ms ts _ hl]
  exact monthSum_center_zero (ms.zip ts) m

lemma anomaly_total_sum_zero (ms : List Nat) (ts : List ℚ)
    (hl : ms.length = ts.length) :
    (List.zipWith (fun a b => a - b) ts (monthlyClimate ms ts)).sum = 0 := by
  have hlen : (List.zipWith (fun a b => a - b) ts (monthlyClimate ms ts)).length
      ≤ ms.length := by
    have hmc : (monthlyClimate ms ts).length = ms.length := by
      unfold monthlyClimate
      simp
    simp only [List.length_zipWith, hmc]
    omega
  rw [← List.map_snd_zip ms _ hlen, ← sum_fiberwise_dedup
    (ms.zip (List.zipWith (fun a b => a - b) ts (monthlyClimate ms ts)))]
  apply List.sum_eq_zero
  intro x hx
  rcases List.mem_map.mp hx with ⟨m, _, hxeq⟩
  rw [← hxeq]
  exact monthAnomalySum_zero ms ts hl m

/-- C7: after `add_temperature_anomalies`, the sum of `temp_anomaly` over
the rows sharing any one month value is exactly zero (in the exact
rational arithmetic of the model), because each month's values deviate
from that month's pooled mean; hence the total sum of `temp_anomaly` is
exactly zero as well. -/
theorem C7_month_anomaly_sums (T : Table) (ms : List Nat) (ts : List ℚ)
    (hm : T.month = some ms) (ht : T.tmean = some ts)
    (hl : ms.length = ts.length) :
    ∃ out anom, addTemperatureAnomalies T = some out ∧
      out.temp_anomaly = some anom ∧
      (∀ m : Nat, monthAnomalySum ms anom m = 0) ∧ anom.sum = 0 := by
  simp only [addTemperatureAnomalies, hm, ht]
  exact ⟨_, _, rfl, rfl, fun m => monthAnomalySum_zero ms ts hl m,
    anomaly_total_sum_zero ms ts hl⟩

/-- Witness for C7 at a concrete three-row, two-month table. -/
theorem C7_witness :
    ∃ out anom, addTemperatureAnomalies T7w = some out ∧
      out.temp_anomaly = some anom ∧
      (∀ m : Nat, monthAnomalySum [1, 1, 2] anom m = 0) ∧ anom.sum = 0 :=
  C7_month_anomaly_sums T7w [1, 1, 2] [3, 5, 7] rfl rfl (by decide)

/-! ## C9: stages never mutate their input -/

lemma runStage_frame (stage : Table → Option Table) (s : Store) (df r : Nat)
    (hr : r < s.length) :
    readRef (runStage stage s df).1 r = readRef s r := by
  have hget : ∀ t : Table, readRef (s ++ [t]) r = readRef s r := fun t =>
    List.getD_append s [t] _ r hr
  rcases h : stage (readRef s df) with _ | t2 <;>
    simp only [runStage, h] <;>
    exact hget _

/-- C9: every transformation stage runs on a fresh copy of its argument —
in the store model, the cell of every pre-existing dataframe object (in
particular the argument) is unchanged by `add_basic_features`,
`add_rolling_averages`, `add_temperature_anomalies`, `aggregate_monthly`
and `detect_extreme_events`, and `calculate_statistics` leaves the store
untouched entirely. -/
theorem C9_stages_no_mutation (s : Store) (df r : Nat) (w : Nat) (thr pq : ℚ)
    (hr : r < s.length) :
    readRef (runStage addBasicFeatures s df).1 r = readRef s r ∧
    readRef (runStage (fun t => addRollingAverages t w) s df).1 r = readRef s r ∧
    readRef (runStage addTemperatureAnomalies s df).1 r = readRef s r ∧
    readRef (runStage aggregateMonthly s df).1 r = readRef s r ∧
    readRef (runStage (fun t => detectExtremeEvents t thr pq) s df).1 r
      = readRef s r ∧
    (runCalculateStatistics s df).1 = s :=
  ⟨runStage_frame _ s df r hr, runStage_frame _ s df r hr,
   runStage_frame _ s df r hr, runStage_frame _ s df r hr,
   runStage_frame _ s df r hr, rfl⟩

/-- Witness for C9 at a one-object store. -/
theorem C9_witness :
    readRef (runStage addBasicFeatures [T5w] 0).1 0 = readRef [T5w] 0 ∧
    readRef (runStage (fun t => addRollingAverages t 7) [T5w] 0).1 0
      = readRef [T5w] 0 ∧
    readRef (runStage addTemperatureAnomalies [T5w] 0).1 0 = readRef [T5w] 0 ∧
    readRef (runStage aggregateMonthly [T5w] 0).1 0 = readRef [T5w] 0 ∧
    readRef (runStage (fun t => detectExtremeEvents t 2 95) [T5w] 0).1 0
      = readRef [T5w] 0 ∧
    (runCalculateStatistics [T5w] 0).1 = [T5w] :=
  C9_stages_no_mutation [T5w] 0 0 7 2 95 (by decide)

/-! ## C8: extreme-event flags -/

lemma getD_map_bool {α : Type} (f : α → Bool) (l : List α) (i : Nat) (d : α)
    (hi : i < l.length) :
    (l.map f).getD i false = f (l.getD i d) := by
  rw [List.getD_eq_getElem _ _ (by simpa using hi),
    List.getElem_map, List.getD_eq_getElem _ _ hi]

/-- C8: with `temp_anomaly` present, `extreme_heat` is true exactly when
`temp_anomaly > temp_threshold` and `extreme_cold` exactly when
`temp_anomaly < -temp_threshold`; with it absent, the flags compare
`tmean` with its own 95th/5th percentile; `extreme_precip` is always the
comparison with the `precip_threshold` percentile of `precipitation`
computed from the same table. -/
theorem C8_extreme_events (T : Table) (prs : List ℚ)
    (hp : T.precipitation = some prs) (thr pq : ℚ) :
    (∀ av, T.temp_anomaly = some av →
      ∃ out, detectExtremeEvents T thr pq = some out ∧
        ∃ hs cs ps, out.extreme_heat = some hs ∧ out.extreme_cold = some cs ∧
          out.extreme_precip = some ps ∧
          hs.length = av.length ∧ cs.length = av.length ∧ ps.length = prs.length ∧
          (∀ i, i < av.length → (hs.getD i false = true ↔ thr < av.getD i 0)) ∧
          (∀ i, i < av.length → (cs.getD i false = true ↔ av.getD i 0 < -thr)) ∧
          (∀ i, i < prs.length → (ps.getD i false = true ↔
            quantileQ prs (pq / 100) < prs.getD i 0))) ∧
    (∀ ts, T.temp_anomaly = none → T.tmean = some ts →
      ∃ out, detectExtremeEvents T thr pq = some out ∧
        ∃ hs cs ps, out.extreme_heat = some hs ∧ out.extreme_cold = some cs ∧
          out.extreme_precip = some ps ∧
          hs.length = ts.length ∧ cs.length = ts.length ∧ ps.length = prs.length ∧
          (∀ i, i < ts.length → (hs.getD i false = true ↔
            quantileQ ts (95 / 100) < ts.getD i 0)) ∧
          (∀ i, i < ts.length → (cs.getD i false = true ↔
            ts.getD i 0 < quantileQ ts (5 / 100))) ∧
          (∀ i, i < prs.length → (ps.getD i false = true ↔
            quantileQ prs (pq / 100) < prs.getD i 0))) := by
  constructor
  · intro av ha
    simp only [detectExtremeEvents, ha, hp]
    refine ⟨_, rfl, _, _, _, rfl, rfl, rfl, by simp, by simp, by simp,
      ?_, ?_, ?_⟩
    · intro i hi
      rw [getD_map_bool _ av i 0 hi]
      exact decide_eq_true_iff
    · intro i hi
      rw [getD_map_bool _ av i 0 hi]
      exact decide_eq_true_iff
    · intro i hi
      rw [getD_map_bool _ prs i 0 hi]
      exact decide_eq_true_iff
  · intro ts ha ht
    simp only [detectExtremeEvents, ha, ht, hp]
    refine ⟨_, rfl, _, _, _, rfl, rfl, rfl, by simp, by simp, by simp,
      ?_, ?_, ?_⟩
    · intro i hi
      rw [getD_map_bool _ ts i 0 hi]
      exact decide_eq_true_iff
    · intro i hi
      rw [getD_map_bool _ ts i 0 hi]
      exact decide_eq_true_iff
    · intro i hi
      rw [getD_map_bool _ prs i 0 hi]
      exact decide_eq_true_iff

/-- Witness for C8: the spec scenario `temp_anomaly = 3`,
`temp_threshold = 2`. -/
theorem C8_witness :
    ∃ out, detectExtremeEvents T8w 2 95 = some out ∧
      ∃ hs cs ps, out.extreme_heat = some hs ∧ out.extreme_cold = some cs ∧
        out.extreme_precip = some ps ∧
        hs.length = [(3 : ℚ)].length ∧ cs.length = [(3 : ℚ)].length ∧
        ps.length = [(1 : ℚ)].length ∧
        (∀ i, i < [(3 : ℚ)].length →
          (hs.getD i false = true ↔ 2 < [(3 : ℚ)].getD i 0)) ∧
        (∀ i, i < [(3 : ℚ)].length →
          (cs.getD i false = true ↔ [(3 : ℚ)].getD i 0 < -2)) ∧
        (∀ i, i < [(1 : ℚ)].length → (ps.getD i false = true ↔
          quantileQ [1] ((95 : ℚ) / 100) < [(1 : ℚ)].getD i 0)) :=
  (C8_extreme_events T8w [1] rfl 2 95).1 [3] rfl

/-! ## C10: conditional schema of the aggregation -/

/-- C10: `aggregate_monthly` keys the whole rolling block on the presence
of `tmean_7d` alone — when `tmean_7d` is present all four rolling columns
are aggregated and the call fails if any of the other three is missing;
when `tmean_7d` is absent none of the four is produced even if the others
are present; `temp_anomaly` is aggregated exactly when it is present. -/
theorem C10_conditional_schema (T : Table) (txs tns ts prs ws trs : List ℚ)
    (h1 : T.tmax = some txs) (h2 : T.tmin = some tns) (h3 : T.tmean = some ts)
    (h4 : T.precipitation = some prs) (h5 : T.windspeed_max = some ws)
    (h6 : T.temp_range = some trs) :
    (∀ x7, T.tmean_7d = some x7 →
      ((∃ a7 b7 c7, T.tmax_7d = some a7 ∧ T.tmin_7d = some b7 ∧
          T.precip_7d = some c7) →
        ∃ out, aggregateMonthly T = some out ∧ out.tmean_7d.isSome = true ∧
          out.tmax_7d.isSome = true ∧ out.tmin_7d.isSome = true ∧
          out.precip_7d.isSome = true) ∧
      ((T.tmax_7d = none ∨ T.tmin_7d = none ∨ T.precip_7d = none) →
        aggregateMonthly T = none)) ∧
    (T.tmean_7d = none →
      ∃ out, aggregateMonthly T = some out ∧ out.tmean_7d = none ∧
        out.tmax_7d = none ∧ out.tmin_7d = none ∧ out.precip_7d = none) ∧
    (∀ out, aggregateMonthly T = some out →
      (out.temp_anomaly.isSome = true ↔ T.temp_anomaly.isSome = true)) := by
  refine ⟨?_, ?_, ?_⟩
  · intro x7 h7
    constructor
    · rintro ⟨a7, b7, c7, h8, h9, h10⟩
      simp only [aggregateMonthly, h1, h2, h3, h4, h5, h6, h7, h8, h9, h10]
      exact ⟨_, rfl, rfl, rfl, rfl, rfl⟩
    · intro h
      rcases h with h | h | h
      · simp [aggregateMonthly, h1, h2, h3, h4, h5, h6, h7, h]
      · cases h8 : T.tmax_7d <;>
          simp [aggregateMonthly, h1, h2, h3, h4, h5, h6, h7, h8, h]
      · cases h8 : T.tmax_7d <;> cases h9 : T.tmin_7d <;>
          simp [aggregateMonthly, h1, h2, h3, h4, h5, h6, h7, h8, h9, h]
  · intro h7
    simp only [aggregateMonthly, h1, h2, h3, h4, h5, h6, h7]
    exact ⟨_, rfl, rfl, rfl, rfl, rfl⟩
  · intro out hout
    cases h7 : T.tmean_7d with
    | none =>
      simp only [aggregateMonthly, h1, h2, h3, h4, h5, h6, h7,
        Option.some.injEq] at hout
      subst hout
      simp [Option.isSome_map]
    | some x7 =>
      cases h8 : T.tmax_7d with
      | none =>
        simp [aggregateMonthly, h1, h2, h3, h4, h5, h6, h7, h8] at hout
      | some a7 =>
        cases h9 : T.tmin_7d with
        | none =>
          simp [aggregateMonthly, h1, h2, h3, h4, h5, h6, h7, h8, h9] at hout
        | some b7 =>
          cases h10 : T.precip_7d with
          | none =>
            simp [aggregateMonthly, h1, h2, h3, h4, h5, h6, h7, h8, h9,
              h10] at hout
          | some c7 =>
            simp only [aggregateMonthly, h1, h2, h3, h4, h5, h6, h7, h8, h9,
              h10, Option.some.injEq] at hout
            subst hout
            simp [Option.isSome_map]

/-- Witness for C10: with the rolling block absent, aggregation succeeds
and omits all four rolling columns. -/
theorem C10_witness :
    ∃ out, aggregateMonthly T10w = some out ∧ out.tmean_7d = none ∧
      out.tmax_7d = none ∧ out.tmin_7d = none ∧ out.precip_7d = none :=
  (C10_conditional_schema T10w [10] [0] [5] [2] [3] [10]
    rfl rfl rfl rfl rfl rfl).2.1 rfl

/-! ## C4: monthly aggregation -/

lemma getD_map {α β : Type} (f : α → β) (l : List α) (i : Nat) (d : α)
    (d' : β) (hi : i < l.length) :
    (l.map f).getD i d' = f (l.getD i d) := by
  rw [List.getD_eq_getElem _ _ (by simpa using hi), List.getElem_map,
    List.getD_eq_getElem _ _ hi]

lemma aggregateMonthly_fields (T out : Table) (prs : List ℚ)
    (hp : T.precipitation = some prs)
    (hout : aggregateMonthly T = some out) :
    out.date = (sortedKeys T.date).map (fun k => (⟨k.1, k.2, 1⟩ : Date)) ∧
    out.year = some ((sortedKeys T.date).map Prod.fst) ∧
    out.month = some ((sortedKeys T.date).map Prod.snd) ∧
    out.precipitation = some ((sortedKeys T.date).map
      (fun k => (groupVals T.date prs k).sum)) := by
  rcases h1 : T.tmax with _ | txs
  · simp [aggregateMonthly, h1] at hout
  rcases h2 : T.tmin with _ | tns
  · simp [aggregateMonthly, h1, h2] at hout
  rcases h3 : T.tmean with _ | ts
  · simp [aggregateMonthly, h1, h2, h3] at hout
  rcases h5 : T.windspeed_max with _ | ws
  · simp [aggregateMonthly, h1, h2, h3, hp, h5] at hout
  rcases h6 : T.temp_range with _ | trs
  · simp [aggregateMonthly, h1, h2, h3, hp, h5, h6] at hout
  rcases h7 : T.tmean_7d with _ | x7
  · simp only [aggregateMonthly, h1, h2, h3, hp, h5, h6, h7,
      Option.some.injEq] at hout
    subst hout
    exact ⟨rfl, rfl, rfl, rfl⟩
  · rcases h8 : T.tmax_7d with _ | a7
    · simp [aggregateMonthly, h1, h2, h3, hp, h5, h6, h7, h8] at hout
    rcases h9 : T.tmin_7d with _ | b7
    · simp [aggregateMonthly, h1, h2, h3, hp, h5, h6, h7, h8, h9] at hout
    rcases h10 : T.precip_7d with _ | c7
    · simp [aggregateMonthly, h1, h2, h3, hp, h5, h6, h7, h8, h9, h10] at hout
    simp only [aggregateMonthly, h1, h2, h3, hp, h5, h6, h7, h8, h9, h10,
      Option.some.injEq] at hout
    subst hout
    exact ⟨rfl, rfl, rfl, rfl⟩

/-- C4: each table produced by `aggregate_monthly` has exactly one row per
distinct (year, month) pair of the input (same pairs, no duplicates), its
rows are in chronological order, its `date` column holds the first day of
each (year, month) with `year` and `month` re-derived from it, and each
row's precipitation is the exact sum of the daily precipitation of that
month's input rows. -/
theorem C4_aggregate_monthly (T out : Table) (prs : List ℚ)
    (hp : T.precipitation = some prs) (hlp : prs.length = T.date.length)
    (hout : aggregateMonthly T = some out) :
    (∀ k, k ∈ out.date.map monthKey ↔ k ∈ T.date.map monthKey) ∧
    (out.date.map monthKey).Nodup ∧
    List.Sorted keyLE (out.date.map monthKey) ∧
    (∀ d ∈ out.date, d.day = 1) ∧
    out.year = some (out.date.map Date.year) ∧
    out.month = some (out.date.map Date.month) ∧
    ∃ ps, out.precipitation = some ps ∧ ps.length = out.date.length ∧
      ∀ j, j < out.date.length →
        ps.getD j 0 = (groupVals T.date prs
          (monthKey (out.date.getD j ⟨0, 1, 1⟩))).sum := by
  obtain ⟨hdate, hyear, hmonth, hprec⟩ :=
    aggregateMonthly_fields T out prs hp hout
  have hkeymap : out.date.map monthKey = sortedKeys T.date := by
    rw [hdate, List.map_map]
    have hcomp : (monthKey ∘ fun k : Int × Nat => (⟨k.1, k.2, 1⟩ : Date)) = id := by
      funext k
      rfl
    rw [hcomp, List.map_id]
  have hperm : List.Perm (sortedKeys T.date) ((T.date.map monthKey).dedup) :=
    List.perm_insertionSort keyLE _
  refine ⟨?_, ?_, ?_, ?_, ?_, ?_, ?_⟩
  · intro k
    rw [hkeymap]
    exact hperm.mem_iff.trans List.mem_dedup
  · rw [hkeymap]
    exact hperm.nodup_iff.mpr (List.nodup_dedup _)
  · rw [hkeymap]
    exact List.sorted_insertionSort keyLE _
  · intro d hd
    rw [hdate] at hd
    rcases List.mem_map.mp hd with ⟨k, _, hk⟩
    rw [← hk]
  · rw [hyear, hdate, List.map_map]
    rfl
  · rw [hmonth, hdate, List.map_map]
    rfl
  · refine ⟨_, hprec, ?_, ?_⟩
    · rw [hdate]
      simp
    · intro j hj
      have hjk : j < (sortedKeys T.date).length := by
        rw [hdate, List.length_map] at hj
        exact hj
      rw [getD_map _ _ j ((0 : Int), (0 : Nat)) 0 hjk, hdate,
        getD_map (fun k : Int × Nat => (⟨k.1, k.2, 1⟩ : Date)) (sortedKeys T.date)
          j ((0 : Int), (0 : Nat)) ⟨0, 1, 1⟩ hjk]
      rfl
/-- Witness for C4 at a three-day, two-month table. -/
theorem C4_witness :
    (∀ k, k ∈ T4out.date.map monthKey ↔ k ∈ T4w.date.map monthKey) ∧
    (T4out.date.map monthKey).Nodup ∧
    List.Sorted keyLE (T4out.date.map monthKey) ∧
    (∀ d ∈ T4out.date, d.day = 1) ∧
    T4out.year = some (T4out.date.map Date.year) ∧
    T4out.month = some (T4out.date.map Date.month) ∧
    ∃ ps, T4out.precipitation = some ps ∧ ps.length = T4out.date.length ∧
      ∀ j, j < T4out.date.length →
        ps.getD j 0 = (groupVals T4w.date [1, 1, 7]
          (monthKey (T4out.date.getD j ⟨0, 1, 1⟩))).sum :=
  C4_aggregate_monthly T4w T4out [1, 1, 7] rfl (by decide) (by
    have hkeys : sortedKeys T4w.date
        = [((2023 : Int), (1 : Nat)), ((2023 : Int), (2 : Nat))] := by decide
    simp only [aggregateMonthly, T4w] at *
    rw [hkeys]
    norm_num [groupVals, meanQ, T4out, monthKey, Prod.mk.injEq])
